import Mathlib

/-!
Verification of the core logic of the Intelligent Edge IoT predictive-maintenance
repository: the per-sensor signal models of `aws_iot_sensor_simulator.py` /
`publisher_simulator.py` and the anomaly classifier of
`consume_and_anomaly_update_dynamodb.py`.

Modelling conventions:
* Python floats are idealised as exact rationals / reals (the claims under test
  are range, monotonicity and comparison properties whose margins are far above
  float rounding error); `random.gauss` / `random.uniform` draws are passed in
  as explicit parameters so that "for every random draw" is a plain `∀`.
* Python `round(x, n)` (round-half-to-even on the scaled value) is modelled by
  `pyround` below.
* `decimal.Decimal` values are modelled by `Decimal` (a rational, an infinity,
  or NaN); ordering comparisons involving NaN raise `InvalidOperation`, which
  the classifier embedding propagates as `Except.error ()`.
-/

/-- Round-half-to-even to the nearest integer, the tie-breaking rule used by
Python's builtin `round`.  Stated via `Int.floor`/`Int.fract` so that it is
computable on `ℚ`. -/
def halfEven {α : Type} [LinearOrderedField α] [FloorRing α] (y : α) : ℤ :=
  if Int.fract y < 1/2 then ⌊y⌋
  else if 1/2 < Int.fract y then ⌊y⌋ + 1
  else if 2 ∣ ⌊y⌋ then ⌊y⌋ else ⌊y⌋ + 1

/-- Python `round(x, n)`: scale by `10^n`, round half to even, scale back. -/
def pyround {α : Type} [LinearOrderedField α] [FloorRing α] (n : ℕ) (x : α) : α :=
  (halfEven (x * 10 ^ n) : α) / 10 ^ n

theorem halfEven_mem {α : Type} [LinearOrderedField α] [FloorRing α] (y : α) :
    halfEven y = ⌊y⌋ ∨ halfEven y = ⌊y⌋ + 1 := by
  unfold halfEven; split_ifs <;> simp

theorem halfEven_nonneg {α : Type} [LinearOrderedField α] [FloorRing α] {y : α}
    (h : 0 ≤ y) : 0 ≤ halfEven y := by
  have hf : (0:ℤ) ≤ ⌊y⌋ := Int.floor_nonneg.mpr h
  rcases halfEven_mem y with h' | h' <;> omega

theorem halfEven_le_of_le {α : Type} [LinearOrderedField α] [FloorRing α] {y : α} {m : ℤ}
    (h : y ≤ m) : halfEven y ≤ m := by
  have hfl : ⌊y⌋ ≤ m := by
    have := Int.floor_mono h
    simpa using this
  unfold halfEven
  split_ifs with h1 h2 h3
  · exact hfl
  · -- fract y > 1/2, so y is not an integer and ⌊y⌋ < m
    have hy : (⌊y⌋ : α) = y - Int.fract y := by
      rw [Int.self_sub_fract]
    have : (⌊y⌋ : α) < (m : α) := by
      have h0 : (0:α) < Int.fract y := by linarith
      calc (⌊y⌋ : α) = y - Int.fract y := hy
        _ < y := by linarith
        _ ≤ m := h
    have : ⌊y⌋ < m := by exact_mod_cast this
    omega
  · exact hfl
  · have hy : (⌊y⌋ : α) = y - Int.fract y := by
      rw [Int.self_sub_fract]
    have hfr : Int.fract y = 1/2 := le_antisymm (not_lt.mp h2) (not_lt.mp h1)
    have : (⌊y⌋ : α) < (m : α) := by
      calc (⌊y⌋ : α) = y - Int.fract y := hy
        _ < y := by rw [hfr]; linarith
        _ ≤ m := h
    have : ⌊y⌋ < m := by exact_mod_cast this
    omega

theorem halfEven_mono {α : Type} [LinearOrderedField α] [FloorRing α] {y₁ y₂ : α}
    (h : y₁ ≤ y₂) : halfEven y₁ ≤ halfEven y₂ := by
  by_cases hf : ⌊y₁⌋ < ⌊y₂⌋
  · rcases halfEven_mem y₁ with h1 | h1 <;> rcases halfEven_mem y₂ with h2 | h2 <;> omega
  · have hfe : ⌊y₁⌋ = ⌊y₂⌋ := le_antisymm (Int.floor_mono h) (not_lt.mp hf)
    have hfr : Int.fract y₁ ≤ Int.fract y₂ := by
      unfold Int.fract
      rw [hfe]
      linarith
    unfold halfEven
    rw [hfe]
    split_ifs <;> first | omega | linarith

theorem halfEven_ge_sub_half {α : Type} [LinearOrderedField α] [FloorRing α] (y : α) :
    y - 1/2 ≤ (halfEven y : α) := by
  have hy : (⌊y⌋ : α) = y - Int.fract y := by rw [Int.self_sub_fract]
  have h1 : (0:α) ≤ Int.fract y := Int.fract_nonneg y
  have h2 : Int.fract y < 1 := Int.fract_lt_one y
  unfold halfEven
  split_ifs <;> push_cast <;> linarith

theorem halfEven_le_add_half {α : Type} [LinearOrderedField α] [FloorRing α] (y : α) :
    (halfEven y : α) ≤ y + 1/2 := by
  have hy : (⌊y⌋ : α) = y - Int.fract y := by rw [Int.self_sub_fract]
  have h1 : (0:α) ≤ Int.fract y := Int.fract_nonneg y
  have h2 : Int.fract y < 1 := Int.fract_lt_one y
  unfold halfEven
  split_ifs <;> push_cast <;> linarith

theorem pyround_nonneg {α : Type} [LinearOrderedField α] [FloorRing α] {n : ℕ} {x : α}
    (h : 0 ≤ x) : 0 ≤ pyround n x := by
  unfold pyround
  have h10 : (0:α) < 10 ^ n := by positivity
  have hh : 0 ≤ halfEven (x * 10 ^ n) := halfEven_nonneg (by positivity)
  have : (0:α) ≤ (halfEven (x * 10 ^ n) : α) := by exact_mod_cast hh
  positivity

theorem pyround_le_intCast {α : Type} [LinearOrderedField α] [FloorRing α] {n : ℕ} {x : α}
    {m : ℤ} (h : x ≤ (m : α)) : pyround n x ≤ (m : α) := by
  unfold pyround
  have h10 : (0:α) < 10 ^ n := by positivity
  have hsc : x * 10 ^ n ≤ ((m * 10 ^ n : ℤ) : α) := by
    push_cast
    exact mul_le_mul_of_nonneg_right h (le_of_lt h10)
  have hh : halfEven (x * 10 ^ n) ≤ m * 10 ^ n := halfEven_le_of_le hsc
  have hc : (halfEven (x * 10 ^ n) : α) ≤ ((m * 10 ^ n : ℤ) : α) := by exact_mod_cast hh
  rw [div_le_iff h10]
  push_cast at hc ⊢
  linarith

theorem pyround_mono {α : Type} [LinearOrderedField α] [FloorRing α] {n : ℕ} {x y : α}
    (h : x ≤ y) : pyround n x ≤ pyround n y := by
  unfold pyround
  have h10 : (0:α) < 10 ^ n := by positivity
  have hh : halfEven (x * 10 ^ n) ≤ halfEven (y * 10 ^ n) :=
    halfEven_mono (mul_le_mul_of_nonneg_right h (le_of_lt h10))
  have hc : (halfEven (x * 10 ^ n) : α) ≤ (halfEven (y * 10 ^ n) : α) := by exact_mod_cast hh
  exact (div_le_div_right h10).mpr hc

theorem pyround_ge {α : Type} [LinearOrderedField α] [FloorRing α] (n : ℕ) (x : α) :
    x - (1/2) / 10 ^ n ≤ pyround n x := by
  unfold pyround
  have h10 : (0:α) < 10 ^ n := by positivity
  have he := halfEven_ge_sub_half (x * 10 ^ n)
  rw [le_div_iff h10]
  have hx : (x - 1 / 2 / 10 ^ n) * 10 ^ n = x * 10 ^ n - 1/2 := by field_simp; ring
  rw [hx]
  exact he

theorem pyround_le {α : Type} [LinearOrderedField α] [FloorRing α] (n : ℕ) (x : α) :
    pyround n x ≤ x + (1/2) / 10 ^ n := by
  unfold pyround
  have h10 : (0:α) < 10 ^ n := by positivity
  have he := halfEven_le_add_half (x * 10 ^ n)
  rw [div_le_iff h10]
  have hx : (x + 1 / 2 / 10 ^ n) * 10 ^ n = x * 10 ^ n + 1/2 := by field_simp; ring
  rw [hx]
  exact he

/-!
## Data model for the classifier

`consume_and_anomaly_update_dynamodb.py` parses each Kinesis record with
`json.loads(..., parse_float=Decimal)`, so the values reaching
`detect_anomaly` are: `None`, booleans, ints/`Decimal`s (JSON numbers; the
constants `NaN`/`Infinity` accepted by Python's json module arrive as floats
and convert to `Decimal` NaN/infinities via `Decimal(str(x))`), strings,
lists and dicts.
-/

/-- A Python `decimal.Decimal` value: a finite rational, a signed infinity
(`inf true` = +∞), or (quiet or signaling) NaN.  Payload digits of NaN are not
tracked: they never affect the classifier. -/
inductive Decimal where
  | rat (q : ℚ)
  | inf (pos : Bool)
  | nan
deriving DecidableEq

/-- A parsed JSON value as seen by `detect_anomaly`. -/
inductive JVal where
  | null
  | bool (b : Bool)
  | num (d : Decimal)
  | str (s : String)
  | arr (l : List JVal)
  | obj (l : List (String × JVal))

/-- A JSON object (Python dict), as an association list. -/
abbrev JObj := List (String × JVal)

/-- `d.get(k)` — `None` when the key is missing. -/
def jget (r : JObj) (k : String) : Option JVal :=
  (r.find? (fun p => p.1 == k)).map (fun p => p.2)

/-- `d.get(k, default)`. -/
def pyGetD (r : JObj) (k : String) (d : JVal) : JVal :=
  (jget r k).getD d

/-!
### `Decimal(str)` — the string-conversion grammar of Python's `decimal`

`decimal.Decimal(s)` strips surrounding whitespace, removes underscores, and
then accepts `sign? (digits [. digits] [E sign? digits] | Inf | Infinity |
NaN digits* | sNaN digits*)`, case-insensitively; anything else raises
`InvalidOperation` (which `to_decimal` below turns into `None`).
-/

/-- ASCII upper-casing of one character (`str.upper()` restricted to ASCII,
which covers every name the classifier compares against).  Defined
structurally so that it evaluates inside the kernel. -/
def pyUpperChar (c : Char) : Char :=
  if 'a' ≤ c ∧ c ≤ 'z' then Char.ofNat (c.toNat - 32) else c

def pyLowerChar (c : Char) : Char :=
  if 'A' ≤ c ∧ c ≤ 'Z' then Char.ofNat (c.toNat + 32) else c

def pyUpper (s : String) : String := ⟨s.data.map pyUpperChar⟩

def pyLower (s : String) : String := ⟨s.data.map pyLowerChar⟩

def digitsToNat (l : List Char) : ℕ :=
  l.foldl (fun n c => 10 * n + (c.toNat - 48)) 0

/-- Parse the exponent part (after `e`/`E`): an optionally signed digit string. -/
def parseExpPart (l : List Char) : Option ℤ :=
  match l with
  | '+' :: t => if t ≠ [] ∧ t.all Char.isDigit then some (digitsToNat t : ℤ) else none
  | '-' :: t => if t ≠ [] ∧ t.all Char.isDigit then some (-(digitsToNat t : ℤ)) else none
  | t => if t ≠ [] ∧ t.all Char.isDigit then some (digitsToNat t : ℤ) else none

/-- Parse the mantissa `digits [. digits]` (at least one digit overall). -/
def parseMantissa (l : List Char) : Option ℚ :=
  match l.span Char.isDigit with
  | (ip, rest) =>
    match rest with
    | [] => if ip = [] then none else some (digitsToNat ip : ℚ)
    | '.' :: fp =>
      if fp.all Char.isDigit ∧ (ip ≠ [] ∨ fp ≠ []) then
        some ((digitsToNat ip : ℚ) + (digitsToNat fp : ℚ) / 10 ^ fp.length)
      else none
    | _ => none

/-- Split a character list at the first `e`/`E`, if any. -/
def splitAtExp (l : List Char) : List Char × Option (List Char) :=
  match l.span (fun c => !(c == 'e' || c == 'E')) with
  | (m, []) => (m, none)
  | (m, _ :: rest) => (m, some rest)

/-- Parse an unsigned finite numeric literal, with optional exponent. -/
def parseNumericBody (l : List Char) : Option ℚ :=
  match splitAtExp l with
  | (m, none) => parseMantissa m
  | (m, some ex) =>
    match parseMantissa m, parseExpPart ex with
    | some q, some z => some (q * (10:ℚ) ^ z)
    | _, _ => none

/-- Is this (lowercased, sign-stripped) body a NaN form: `nan`/`snan` plus
optional payload digits? -/
def isNanBody (l : List Char) : Bool :=
  match l with
  | 'n' :: 'a' :: 'n' :: rest => rest.all Char.isDigit
  | 's' :: 'n' :: 'a' :: 'n' :: rest => rest.all Char.isDigit
  | _ => false

/-- `Decimal(s)` for a string `s`: `none` models the `InvalidOperation` that
`to_decimal` catches. -/
def parseDecString (s : String) : Option Decimal :=
  let cs := ((s.toList.dropWhile Char.isWhitespace).reverse.dropWhile
      Char.isWhitespace).reverse.filter (fun c => c ≠ '_')
  let (neg, body) :=
    match cs with
    | '+' :: t => (false, t)
    | '-' :: t => (true, t)
    | t => (false, t)
  let lower := body.map pyLowerChar
  if lower = "inf".toList ∨ lower = "infinity".toList then some (.inf (!neg))
  else if isNanBody lower then some .nan
  else (parseNumericBody body).map (fun q => .rat (if neg then -q else q))

/-- `str(x)` for the JSON values above, to the extent the classifier observes
it: it is compared (after `.upper()`/`.lower()`) against alphabetic sensor
names and substrings, and fed to `Decimal(str(x))`.  The rendering of numbers
is abstracted to the rational's canonical form (contains only digits, `-`,
`/`), and lists/dicts to placeholders: none of these can match a sensor name,
contain a trigger substring, or parse as a `Decimal` — exactly like the real
`str` output of those values. -/
def pyStr : JVal → String
  | .str s => s
  | .null => "None"
  | .bool true => "True"
  | .bool false => "False"
  | .num (.rat q) => toString q
  | .num (.inf true) => "Infinity"
  | .num (.inf false) => "-Infinity"
  | .num .nan => "NaN"
  | .arr _ => "<arr>"
  | .obj _ => "<obj>"

/-- `to_decimal` (consume_and_anomaly_update_dynamodb.py, lines 41-49):
`None → None`; a `Decimal` is returned as-is; otherwise `Decimal(str(x))`,
with any exception absorbed into `None`.  (Ints and floats also round-trip
through `Decimal(str(x))` to the same `Decimal` value, so all JSON numbers
are covered by the `.num` case.) -/
def to_decimal (x : Option JVal) : Option Decimal :=
  match x with
  | none => none
  | some (.num d) => some d
  | some v => parseDecString (pyStr v)

/-- Python truthiness of a `Decimal` (`bool(d)`): zero is falsy, every other
value — including NaN and the infinities — is truthy. -/
def dTruthy : Decimal → Bool
  | .rat q => q != 0
  | .inf _ => true
  | .nan => true

/-- Python `a or b` specialised to optional Decimals, as used in the
classifier's alias-fallback chains: `None` and `Decimal(0)` are falsy. -/
def orD (a b : Option Decimal) : Option Decimal :=
  match a with
  | none => b
  | some v => if dTruthy v then some v else b

/-!
### Decimal comparisons

Ordering comparisons (`<`, `<=`, `>`, `>=`) on Python Decimals raise
`InvalidOperation` when either operand is NaN (quiet or signaling); the
infinities compare normally.  `Except.error ()` models the raised exception.
-/

def dLT : Decimal → Decimal → Except Unit Bool
  | .nan, _ => .error ()
  | _, .nan => .error ()
  | .rat a, .rat b => .ok (decide (a < b))
  | .rat _, .inf s => .ok s
  | .inf s, .rat _ => .ok (!s)
  | .inf s, .inf t => .ok (!s && t)

def dLE : Decimal → Decimal → Except Unit Bool
  | .nan, _ => .error ()
  | _, .nan => .error ()
  | .rat a, .rat b => .ok (decide (a ≤ b))
  | .rat _, .inf s => .ok s
  | .inf s, .rat _ => .ok (!s)
  | .inf s, .inf t => .ok (!s || t)

def dGT (a b : Decimal) : Except Unit Bool := dLT b a

def dGE (a b : Decimal) : Except Unit Bool := dLE b a

/-- `x is not None and CMP(x, th)` — the guard pattern of every rule in
`detect_anomaly`: an absent field short-circuits to `False` (rule skipped),
a present one is compared (possibly raising). -/
def guardCmp (o : Option Decimal) (f : Decimal → Except Unit Bool) : Except Unit Bool :=
  match o with
  | none => .ok false
  | some v => f v

/-!
## The classifier (`consume_and_anomaly_update_dynamodb.py`)
-/

/-- The threshold table `TH` (lines 18-36).  The catch-all value models the
`KeyError` a missing key would raise; every access in `detect_anomaly` uses
one of the eight present keys, so it is never reached. -/
def TH (k : String) : Decimal :=
  if k = "VIB_RMS_G_HIGH" then .rat (55/1000)
  else if k = "HEALTH_SCORE_LOW" then .rat 78
  else if k = "TEMP_C_LOW" then .rat 10
  else if k = "TEMP_C_HIGH" then .rat 70
  else if k = "CURRENT_A_LOW" then .rat (20/100)
  else if k = "CURRENT_A_HIGH" then .rat 15
  else if k = "SOUND_RMS_HIGH" then .rat (60/100)
  else if k = "SOUND_DB_HIGH" then .rat 85
  else .rat 0

/-- One metric entry is either a string or an optional Decimal (the Python
dict stores strings, Decimals and `None`s). -/
inductive MVal where
  | s (v : String)
  | d (v : Option Decimal)
deriving DecidableEq

abbrev Metrics := List (String × MVal)

/-- The classifier's verdict; the human-readable `reason` f-string of the
source is not modelled (no claim concerns it). -/
structure Verdict where
  is_anomaly : Bool
  anomaly_type : String
  metrics : Metrics
deriving DecidableEq

/-- `get_data_dict` (lines 54-56): the nested `data` member if it is a dict,
else `{}`. -/
def get_data_dict (r : JObj) : JObj :=
  match jget r "data" with
  | some (.obj d) => d
  | _ => []

/-- `str(r.get("sensor", "")).upper()` (line 71). -/
def sensorUpper (r : JObj) : String :=
  pyUpper (pyStr (pyGetD r "sensor" (.str "")))

/-- `str(r.get("datatype", "")).lower()` (line 72). -/
def datatypeLower (r : JObj) : String :=
  pyLower (pyStr (pyGetD r "datatype" (.str "")))

/-- Python's substring test `needle in hay`. -/
def sublistIn : List Char → List Char → Bool
  | n, [] => n.isEmpty
  | n, c :: t => n.isPrefixOf (c :: t) || sublistIn n t

def pyIn (needle hay : String) : Bool :=
  sublistIn needle.toList hay.toList

/-- The MPU6050 metrics dict (lines 81-87). -/
def metricsMPU (sensor : String) (rpm vib health : Option Decimal)
    (fault_state : String) : Metrics :=
  [("sensor", .s sensor), ("rpm", .d rpm), ("vibration_rms_g", .d vib),
   ("health_score", .d health), ("fault_state", .s fault_state)]

def metricsDS (temp : Option Decimal) : Metrics :=
  [("sensor", .s "DS18B20"), ("temperature_c", .d temp)]

def metricsSCT (cur : Option Decimal) : Metrics :=
  [("sensor", .s "SCT-013"), ("current_a", .d cur)]

def metricsINMP (sound_rms sound_db : Option Decimal) : Metrics :=
  [("sensor", .s "INMP441"), ("sound_rms", .d sound_rms), ("sound_db", .d sound_db)]

/-- The temperature alias chain (lines 100-107): Python `or` over the six
candidate lookups. -/
def tempResolve (r data : JObj) : Option Decimal :=
  orD (to_decimal (jget r "temperature_c"))
    (orD (to_decimal (jget data "temperature_c"))
      (orD (to_decimal (jget r "temp_c"))
        (orD (to_decimal (jget data "temp_c"))
          (orD (to_decimal (jget r "value"))
            (to_decimal (jget data "value"))))))

/-- The current alias chain (lines 120-127). -/
def curResolve (r data : JObj) : Option Decimal :=
  orD (to_decimal (jget r "current_a"))
    (orD (to_decimal (jget data "current_a"))
      (orD (to_decimal (jget data "current"))
        (orD (to_decimal (jget data "amps"))
          (orD (to_decimal (jget r "value"))
            (to_decimal (jget data "value"))))))

/-- The acoustic RMS alias chain (lines 140-147). -/
def soundRmsResolve (r data : JObj) : Option Decimal :=
  orD (to_decimal (jget r "sound_rms"))
    (orD (to_decimal (jget data "sound_rms"))
      (orD (to_decimal (jget r "rms"))
        (orD (to_decimal (jget data "rms"))
          (orD (to_decimal (jget r "value"))
            (to_decimal (jget data "value"))))))

/-- The acoustic dB alias chain (lines 148-153). -/
def soundDbResolve (r data : JObj) : Option Decimal :=
  orD (to_decimal (jget r "sound_db"))
    (orD (to_decimal (jget data "sound_db"))
      (orD (to_decimal (jget r "noise_db"))
        (to_decimal (jget data "noise_db"))))

/-- The MPU6050 branch (lines 76-96): fields come only from the nested data
dict, vibration rule first, then health, then `NORMAL`; `fault_state` alone
never triggers (line 95's NOTE). -/
def detectMPU6050 (r data : JObj) (sensor : String) : Except Unit Verdict :=
  let vib := to_decimal (jget data "vibration_rms_g")
  let health := to_decimal (jget data "health_score")
  let fault_state := pyStr (pyGetD data "fault_state" (.str "normal"))
  let metrics := metricsMPU sensor (to_decimal (jget r "rpm")) vib health fault_state
  match guardCmp vib (fun v => dGE v (TH "VIB_RMS_G_HIGH")) with
  | .error e => .error e
  | .ok true => .ok ⟨true, "MPU6050_HIGH_VIBRATION", metrics⟩
  | .ok false =>
    match guardCmp health (fun h => dLE h (TH "HEALTH_SCORE_LOW")) with
    | .error e => .error e
    | .ok true => .ok ⟨true, "MPU6050_LOW_HEALTH", metrics⟩
    | .ok false => .ok ⟨false, "NORMAL", metrics⟩

/-- The DS18B20 branch (lines 99-116). -/
def detectDS18B20 (r data : JObj) : Except Unit Verdict :=
  let temp := tempResolve r data
  let metrics := metricsDS temp
  match guardCmp temp (fun t => dLT t (TH "TEMP_C_LOW")) with
  | .error e => .error e
  | .ok true => .ok ⟨true, "DS18B20_LOW_TEMP", metrics⟩
  | .ok false =>
    match guardCmp temp (fun t => dGT t (TH "TEMP_C_HIGH")) with
    | .error e => .error e
    | .ok true => .ok ⟨true, "DS18B20_HIGH_TEMP", metrics⟩
    | .ok false => .ok ⟨false, "NORMAL", metrics⟩

/-- The SCT-013 branch (lines 119-136). -/
def detectSCT013 (r data : JObj) : Except Unit Verdict :=
  let cur := curResolve r data
  let metrics := metricsSCT cur
  match guardCmp cur (fun c => dLT c (TH "CURRENT_A_LOW")) with
  | .error e => .error e
  | .ok true => .ok ⟨true, "SCT013_LOW_CURRENT", metrics⟩
  | .ok false =>
    match guardCmp cur (fun c => dGT c (TH "CURRENT_A_HIGH")) with
    | .error e => .error e
    | .ok true => .ok ⟨true, "SCT013_HIGH_CURRENT", metrics⟩
    | .ok false => .ok ⟨false, "NORMAL", metrics⟩

/-- The INMP441 branch (lines 139-163): the dB rule is evaluated before the
RMS rule. -/
def detectINMP441 (r data : JObj) : Except Unit Verdict :=
  let sound_rms := soundRmsResolve r data
  let sound_db := soundDbResolve r data
  let metrics := metricsINMP sound_rms sound_db
  match guardCmp sound_db (fun d => dGE d (TH "SOUND_DB_HIGH")) with
  | .error e => .error e
  | .ok true => .ok ⟨true, "INMP441_HIGH_DB", metrics⟩
  | .ok false =>
    match guardCmp sound_rms (fun s => dGE s (TH "SOUND_RMS_HIGH")) with
    | .error e => .error e
    | .ok true => .ok ⟨true, "INMP441_HIGH_RMS", metrics⟩
    | .ok false => .ok ⟨false, "NORMAL", metrics⟩

/-- `detect_anomaly` (lines 66-165): sensor-type dispatch in source order,
falling through to the `UNKNOWN_SENSOR` verdict. -/
def detect_anomaly (r : JObj) : Except Unit Verdict :=
  let sensor := sensorUpper r
  let datatype := datatypeLower r
  let data := get_data_dict r
  if sensor = "MPU6050" then detectMPU6050 r data sensor
  else if sensor = "DS18B20" ∨ pyIn "ds18b20" datatype ∨ pyIn "temp" datatype then
    detectDS18B20 r data
  else if sensor = "SCT-013" ∨ sensor = "SCT013" ∨ pyIn "current" datatype
      ∨ pyIn "amps" datatype then
    detectSCT013 r data
  else if sensor = "INMP441" ∨ pyIn "sound" datatype ∨ pyIn "noise" datatype then
    detectINMP441 r data
  else .ok ⟨false, "UNKNOWN_SENSOR", [("sensor", .s sensor)]⟩

/-!
## Spec-side formulations of the field-resolution claim (C1)
-/

/-- The six candidate lookups of the temperature chain, in source order. -/
def tempAliasSlots (r data : JObj) : List (Option JVal) :=
  [jget r "temperature_c", jget data "temperature_c", jget r "temp_c",
   jget data "temp_c", jget r "value", jget data "value"]

/-- A generic Python `or`-chain over converted alias slots (the shape of all
four resolver chains above). -/
def pyOrChainD : List (Option Decimal) → Option Decimal
  | [] => none
  | [a] => a
  | a :: b :: t => orD a (pyOrChainD (b :: t))

/-- Truthiness of a chain element: present and nonzero. -/
def truthyO : Option Decimal → Bool
  | none => false
  | some v => dTruthy v

/-- The spec's wording of resolution: the value of the FIRST alias that is
present and numerically convertible (regardless of its value). -/
def specFirstConvertible (slots : List (Option JVal)) : Option Decimal :=
  slots.findSome? to_decimal

/-- What the `or`-chain actually computes: the first alias converting to a
TRUTHY (nonzero) Decimal; failing that, the conversion of the LAST alias
(which may be a present zero, or absent). -/
def specAmendedResolve (slots : List (Option JVal)) : Option Decimal :=
  let ds := slots.map to_decimal
  match ds.find? truthyO with
  | some o => o
  | none => ds.getLast?.join

/-!
## The signal models

`simulate_current` and `simulate_temperature` of `aws_iot_sensor_simulator.py`
are pure rational arithmetic once the random draws are parameters, so they are
embedded over `ℚ`; `simulate_mpu6050` uses `math.sqrt`/`math.sin`, so it is
embedded over `ℝ`.
-/

/-- `clamp` (aws_iot_sensor_simulator.py, lines 43-44): `max(lo, min(hi, x))`. -/
def clamp {α : Type} [LinearOrder α] (x lo hi : α) : α :=
  max lo (min hi x)

/-- `simulate_current` (aws_iot_sensor_simulator.py, lines 114-132).
`u` is the `random.uniform(-noise_a, noise_a)` draw and `v` the
`random.uniform(1.2, 1.5)` imbalance draw; both are passed unconstrained, so
the theorems below hold for every draw. -/
def simulate_current (rpm : ℚ) (fault : String) (u v : ℚ) : ℚ :=
  let rated_current_a : ℚ := 8
  let overload_current_a : ℚ := 13
  let base := rated_current_a * (rpm / 1450)
  let current :=
    if fault = "overload" then overload_current_a
    else if fault = "imbalance" then base * v
    else base
  pyround 2 (max (current + u) 0)

/-- `simulate_current` of `publisher_simulator.py` (lines 64-75): same model,
but parameterised by the config values and — crucially — WITHOUT the
`max(current, 0)` clamp before rounding. -/
def publisher_simulate_current (fault : String) (rpm : ℚ)
    (rated_current_a overload_current_a : ℚ) (u v : ℚ) : ℚ :=
  let base := rated_current_a * (rpm / 1450)
  let current :=
    if fault = "overload" then overload_current_a
    else if fault = "imbalance" then base * v
    else base
  pyround 2 (current + u)

/-- `simulate_temperature` (aws_iot_sensor_simulator.py, lines 94-111).
`target` is the `random.uniform(normal_min, normal_max)` draw used only by
the `normal` branch. -/
def simulate_temperature (temp_c : ℚ) (fault : String) (target : ℚ) : ℚ :=
  let rise_rate : ℚ := 5/100
  if fault = "overheating" then pyround 2 (temp_c + rise_rate * 3)
  else if fault = "cooling_failure" then pyround 2 (temp_c + rise_rate * (3/2))
  else pyround 2 (temp_c + (target - temp_c) * (5/100))

/-- `rms` (aws_iot_sensor_simulator.py, lines 47-48):
`sqrt(sum(v*v)/max(len(vals),1))`. -/
noncomputable def rmsList (vals : List ℝ) : ℝ :=
  Real.sqrt ((vals.map (fun v => v * v)).sum / (max vals.length 1 : ℕ))

/-- The health formula of line 82: `clamp(100 - vib_rms*400, 0, 100)`. -/
noncomputable def healthOf (vib_rms : ℝ) : ℝ :=
  clamp (100 - vib_rms * 400) 0 100

/-- Output record of `simulate_mpu6050`. -/
structure MpuOut where
  ax_g : ℝ
  ay_g : ℝ
  az_g : ℝ
  vibration_rms_g : ℝ
  health_score : ℝ
  fault_state : String

/-- The three axis signals of `simulate_mpu6050` (lines 66-79): Gaussian
draws `gx gy gz` plus the fault-specific sinusoid. -/
noncomputable def mpuAxes (fault_mode : String) (rpm t_sec gx gy gz : ℝ) : ℝ × ℝ × ℝ :=
  let f := rpm / 60
  let ax :=
    if fault_mode = "bearing_wear" then gx + (6/100) * Real.sin (2 * Real.pi * 8 * f * t_sec)
    else if fault_mode = "misalignment" then gx + (5/100) * Real.sin (2 * Real.pi * 2 * f * t_sec)
    else gx + (3/100) * Real.sin (2 * Real.pi * f * t_sec)
  let ay :=
    if fault_mode = "bearing_wear" then gy + (6/100) * Real.cos (2 * Real.pi * 8 * f * t_sec)
    else if fault_mode = "misalignment" then gy + (5/100) * Real.cos (2 * Real.pi * 2 * f * t_sec)
    else gy + (3/100) * Real.cos (2 * Real.pi * f * t_sec)
  let az := 1 + gz
  (ax, ay, az)

/-- The unrounded vibration RMS of line 81: `rms([ax, ay, az - 1.0])`. -/
noncomputable def rawVibRms (fault_mode : String) (rpm t_sec gx gy gz : ℝ) : ℝ :=
  let a := mpuAxes fault_mode rpm t_sec gx gy gz
  rmsList [a.1, a.2.1, a.2.2 - 1]

/-- `simulate_mpu6050` (aws_iot_sensor_simulator.py, lines 58-91), with the
`random.gauss(0, 0.02)` draws `gx gy gz` as parameters. -/
noncomputable def simulate_mpu6050 (fault_mode : String) (rpm t_sec gx gy gz : ℝ) :
    MpuOut :=
  let a := mpuAxes fault_mode rpm t_sec gx gy gz
  let vib_rms := rmsList [a.1, a.2.1, a.2.2 - 1]
  let health := healthOf vib_rms
  { ax_g := pyround 5 a.1
    ay_g := pyround 5 a.2.1
    az_g := pyround 5 a.2.2
    vibration_rms_g := pyround 5 vib_rms
    health_score := pyround 2 health
    fault_state := fault_mode }

/-!
## Concrete readings used by counterexamples and witnesses
-/

/-- C1 counterexample input: `temperature_c = 0` (present, convertible, zero)
at top level, `temp_c = 50` behind it. -/
def wC1 : JObj :=
  [("sensor", .str "DS18B20"), ("temperature_c", .num (.rat 0)),
   ("temp_c", .num (.rat 50))]

/-- C1 witness input: no temperature alias present at all. -/
def wC1n : JObj := [("sensor", .str "DS18B20")]

/-- C4 witness input. -/
def wC4 : JObj := [("sensor", .str "DS18B20"), ("temp_c", .num (.rat 85))]

/-- C5 witness input: `sound_db = 90` and a NaN `sound_rms`, which the dB rule
never looks at. -/
def wC5 : JObj :=
  [("sensor", .str "INMP441"), ("sound_db", .num (.rat 90)),
   ("sound_rms", .num .nan)]

/-- C7 counterexample input: `temp_c` present but unconvertible, and the later
`value` alias a JSON `NaN` float — `Decimal("nan")` is convertible and truthy,
and the `temp < TH` comparison then raises `InvalidOperation`. -/
def wC7bad : JObj :=
  [("sensor", .str "DS18B20"), ("temp_c", .str "abc"), ("value", .num .nan)]

/-- C7 witness input: unconvertible `sound_db`, valid `sound_rms = 0.9`. -/
def wC7 : JObj :=
  [("sensor", .str "INMP441"), ("sound_db", .str "abc"),
   ("sound_rms", .num (.rat (9/10)))]

/-- C8 witness input. -/
def wC8 : JObj := [("sensor", .str "UNKNOWN_DEVICE")]

/-- C9 witness input: a faulted label but in-threshold numerics. -/
def wC9 : JObj :=
  [("sensor", .str "MPU6050"),
   ("data", .obj [("vibration_rms_g", .num (.rat (1/100))),
                  ("health_score", .num (.rat 95)),
                  ("fault_state", .str "bearing_wear")])]

/-- C10 witness input: vibration fields at top level only, no `data` dict. -/
def wC10 : JObj :=
  [("sensor", .str "MPU6050"), ("vibration_rms_g", .num (.rat (9/100))),
   ("health_score", .num (.rat 10))]

/-!
## Helper lemmas
-/

theorem halfEven_intCast {α : Type} [LinearOrderedField α] [FloorRing α] (m : ℤ) :
    halfEven (m : α) = m := by
  unfold halfEven
  rw [Int.fract_intCast, Int.floor_intCast]
  norm_num

theorem orD_not_truthy {a b : Option Decimal} (h : truthyO a = false) : orD a b = b := by
  cases a with
  | none => rfl
  | some v =>
    simp only [truthyO] at h
    simp [orD, h]

/-- Characterisation of a Python `or`-chain over optional Decimals: the first
truthy element wins; when none is truthy the chain evaluates to its LAST
element (which may be a falsy present value). -/
theorem pyOrChainD_spec (ds : List (Option Decimal)) (hne : ds ≠ []) :
    pyOrChainD ds = (match ds.find? truthyO with
      | some o => o
      | none => ds.getLast?.join) := by
  induction ds with
  | nil => exact absurd rfl hne
  | cons a t ih =>
    cases t with
    | nil =>
      by_cases ht : truthyO a = true
      · rw [pyOrChainD, List.find?_cons_of_pos _ ht]
      · rw [pyOrChainD, List.find?_cons_of_neg _ (by simp [ht]), List.find?_nil]
        simp [Option.join]
    | cons b t' =>
      have ihh := ih (by simp)
      by_cases ht : truthyO a = true
      · obtain ⟨v, hv, htv⟩ : ∃ v, a = some v ∧ dTruthy v = true := by
          cases a with
          | none => simp [truthyO] at ht
          | some v => exact ⟨v, rfl, by simpa [truthyO] using ht⟩
        subst hv
        rw [pyOrChainD, List.find?_cons_of_pos _ ht]
        simp [orD, htv]
      · have hskip : orD a (pyOrChainD (b :: t')) = pyOrChainD (b :: t') :=
          orD_not_truthy (by simp [ht])
        rw [pyOrChainD, hskip, List.find?_cons_of_neg _ (by simp [ht]),
          List.getLast?_cons_cons]
        exact ihh

/-!
## Claims
-/

/-- C1 (corrected): in the temperature alias chain, the resolved value is the
first alias that is present, numerically convertible AND nonzero (Python `or`
skips falsy `Decimal(0)` values); when no alias converts to a nonzero value
the field takes the conversion of the LAST alias (`data["value"]`) — possibly
a present zero — and is otherwise absent; and when the field is absent both
temperature rules are skipped and the verdict is `NORMAL` (never a silent
zero default). -/
theorem claim_C1_field_resolution (r : JObj) (hs : sensorUpper r = "DS18B20") :
    tempResolve r (get_data_dict r) =
      specAmendedResolve (tempAliasSlots r (get_data_dict r)) ∧
    (tempResolve r (get_data_dict r) = none →
      detect_anomaly r = .ok ⟨false, "NORMAL", metricsDS none⟩) := by
  constructor
  · calc tempResolve r (get_data_dict r)
        = pyOrChainD ((tempAliasSlots r (get_data_dict r)).map to_decimal) := rfl
      _ = (match ((tempAliasSlots r (get_data_dict r)).map to_decimal).find? truthyO with
            | some o => o
            | none => ((tempAliasSlots r (get_data_dict r)).map to_decimal).getLast?.join) :=
          pyOrChainD_spec _ (by simp [tempAliasSlots])
      _ = specAmendedResolve (tempAliasSlots r (get_data_dict r)) := rfl
  · intro htemp
    simp only [detect_anomaly, hs]
    rw [if_pos (Or.inl trivial)]
    simp only [detectDS18B20, htemp]
    rfl

/-- C1 counterexample: with `temperature_c = 0` present and convertible at the
head of the chain and `temp_c = 50` behind it, the claim's "first alias
present and numerically convertible wins" predicts 0, but the code resolves
50. -/
theorem claim_C1_counterexample :
    specFirstConvertible (tempAliasSlots wC1 (get_data_dict wC1)) = some (.rat 0) ∧
    tempResolve wC1 (get_data_dict wC1) = some (.rat 50) ∧
    (some (Decimal.rat 50) ≠ some (Decimal.rat 0)) :=
  ⟨rfl, rfl, by decide⟩

theorem claim_C1_witness :
    sensorUpper wC1n = "DS18B20" ∧
    tempResolve wC1n (get_data_dict wC1n) = none ∧
    detect_anomaly wC1n = .ok ⟨false, "NORMAL", metricsDS none⟩ :=
  ⟨rfl, rfl, (claim_C1_field_resolution wC1n rfl).2 rfl⟩

/-- C2 (corrected): the AWS IoT simulator's current model clamps at zero
before rounding, so its output is nonnegative for EVERY fault mode, every RPM
and every noise/imbalance draw (even unbounded ones). -/
theorem claim_C2_current_nonneg (rpm : ℚ) (fault : String) (u v : ℚ) :
    0 ≤ simulate_current rpm fault u v := by
  simp only [simulate_current]
  exact pyround_nonneg (le_max_right _ 0)

/-- C2 counterexample: `publisher_simulator.py`'s `simulate_current` has no
clamp; with the normal fault mode, zero RPM, the config values mirrored by the
AWS variant (rated 8 A, overload 13 A, noise 0.25 A) and an in-range noise
draw of −0.2 A it returns −0.2 < 0. -/
theorem claim_C2_counterexample :
    publisher_simulate_current "normal" 0 8 13 (-(1/5)) (13/10) = -(1/5) ∧
    publisher_simulate_current "normal" 0 8 13 (-(1/5)) (13/10) < 0 := by
  have hb : publisher_simulate_current "normal" 0 8 13 (-(1/5)) (13/10) =
      pyround 2 (-(1/5) : ℚ) := by
    simp only [publisher_simulate_current,
      if_neg (by decide : ¬("normal" : String) = "overload"),
      if_neg (by decide : ¬("normal" : String) = "imbalance")]
    norm_num
  have harg : (-(1/5) : ℚ) * 10 ^ 2 = ((-20 : ℤ) : ℚ) := by norm_num
  have hval : publisher_simulate_current "normal" 0 8 13 (-(1/5)) (13/10) = -(1/5) := by
    rw [hb]
    unfold pyround
    rw [harg, halfEven_intCast]
    norm_num
  exact ⟨hval, by rw [hval]; norm_num⟩

/-- C6 (confirmed): iterating the temperature model with the fault held at
`overheating` yields a non-decreasing output sequence; likewise under
`cooling_failure`; and every cooling_failure per-tick increment (≤ 0.08 after
rounding) is strictly smaller than every overheating per-tick increment
(≥ 0.145). -/
theorem claim_C6_temperature_monotone :
    (∀ (t0 target : ℚ) (n : ℕ),
      (fun t => simulate_temperature t "overheating" target)^[n] t0 ≤
        (fun t => simulate_temperature t "overheating" target)^[n + 1] t0) ∧
    (∀ (t0 target : ℚ) (n : ℕ),
      (fun t => simulate_temperature t "cooling_failure" target)^[n] t0 ≤
        (fun t => simulate_temperature t "cooling_failure" target)^[n + 1] t0) ∧
    (∀ (t t' target target' : ℚ),
      simulate_temperature t "cooling_failure" target - t <
        simulate_temperature t' "overheating" target' - t') := by
  have hover : ∀ (t tg : ℚ), t + 29/200 ≤ simulate_temperature t "overheating" tg := by
    intro t tg
    show t + 29/200 ≤ pyround 2 (t + 5/100 * 3)
    have h := pyround_ge 2 (t + 5/100 * 3 : ℚ)
    norm_num at h ⊢
    linarith
  have hcool : ∀ (t tg : ℚ), t + 7/100 ≤ simulate_temperature t "cooling_failure" tg := by
    intro t tg
    show t + 7/100 ≤ pyround 2 (t + 5/100 * (3/2))
    have h := pyround_ge 2 (t + 5/100 * (3/2) : ℚ)
    norm_num at h ⊢
    linarith
  have hcoolU : ∀ (t tg : ℚ), simulate_temperature t "cooling_failure" tg ≤ t + 2/25 := by
    intro t tg
    show pyround 2 (t + 5/100 * (3/2)) ≤ t + 2/25
    have h := pyround_le 2 (t + 5/100 * (3/2) : ℚ)
    norm_num at h ⊢
    linarith
  refine ⟨?_, ?_, ?_⟩
  · intro t0 tg n
    rw [Function.iterate_succ_apply']
    have := hover ((fun t => simulate_temperature t "overheating" tg)^[n] t0) tg
    simpa using le_trans (by linarith) this
  · intro t0 tg n
    rw [Function.iterate_succ_apply']
    have := hcool ((fun t => simulate_temperature t "cooling_failure" tg)^[n] t0) tg
    simpa using le_trans (by linarith) this
  · intro t t' tg tg'
    have h1 := hcoolU t tg
    have h2 := hover t' tg'
    linarith

/-- C3 (confirmed): for every fault mode, RPM ≥ 0, elapsed time and Gaussian
draws, the vibration model's `vibration_rms_g` is ≥ 0 and `health_score` lies
in [0,100]; the health score is exactly `round(clamp(100 − 400·RMS, 0, 100), 2)`
of the unrounded RMS, and that function is monotonically non-increasing in the
RMS value. -/
theorem claim_C3_vibration_health (m : String) (rpm t gx gy gz : ℝ)
    (hrpm : 0 ≤ rpm) (r₁ r₂ : ℝ) (h12 : r₁ ≤ r₂) :
    0 ≤ (simulate_mpu6050 m rpm t gx gy gz).vibration_rms_g ∧
    0 ≤ (simulate_mpu6050 m rpm t gx gy gz).health_score ∧
    (simulate_mpu6050 m rpm t gx gy gz).health_score ≤ 100 ∧
    (simulate_mpu6050 m rpm t gx gy gz).health_score =
      pyround 2 (healthOf (rawVibRms m rpm t gx gy gz)) ∧
    pyround 2 (healthOf r₂) ≤ pyround 2 (healthOf r₁) := by
  have hrms : 0 ≤ rawVibRms m rpm t gx gy gz := Real.sqrt_nonneg _
  have hh0 : ∀ x : ℝ, 0 ≤ healthOf x := fun x => le_max_left 0 _
  have hh100 : ∀ x : ℝ, healthOf x ≤ 100 :=
    fun x => max_le (by norm_num) (min_le_left _ _)
  refine ⟨?_, ?_, ?_, rfl, ?_⟩
  · exact pyround_nonneg hrms
  · exact pyround_nonneg (hh0 _)
  · have := pyround_le_intCast (n := 2) (m := 100)
      (by push_cast; exact hh100 (rawVibRms m rpm t gx gy gz))
    push_cast at this
    exact this
  · refine pyround_mono ?_
    unfold healthOf clamp
    have : 100 - r₂ * 400 ≤ 100 - r₁ * 400 := by linarith
    exact max_le_max (le_refl 0) (min_le_min (le_refl 100) this)

theorem claim_C3_witness :
    (0:ℝ) ≤ 0 ∧ (0:ℝ) ≤ 1 ∧
    (0 ≤ (simulate_mpu6050 "normal" 0 0 0 0 0).vibration_rms_g ∧
     0 ≤ (simulate_mpu6050 "normal" 0 0 0 0 0).health_score ∧
     (simulate_mpu6050 "normal" 0 0 0 0 0).health_score ≤ 100 ∧
     (simulate_mpu6050 "normal" 0 0 0 0 0).health_score =
       pyround 2 (healthOf (rawVibRms "normal" 0 0 0 0 0)) ∧
     pyround 2 (healthOf 1) ≤ pyround 2 (healthOf 0)) :=
  ⟨le_refl 0, by norm_num,
   claim_C3_vibration_health "normal" 0 0 0 0 0 (le_refl 0) 0 1 (by norm_num)⟩

/-- C4 (confirmed): a DS18B20 reading with `temperature_c` absent (top level
and nested) but `temp_c = 85` resolves the temperature to 85 through the alias
chain, fires the high-temperature rule against `TEMP_C_HIGH = 70`, and reports
`metrics["temperature_c"] = 85`. -/
theorem claim_C4_fallback_high_temp (r : JObj)
    (hs : sensorUpper r = "DS18B20")
    (h1 : jget r "temperature_c" = none)
    (h2 : jget (get_data_dict r) "temperature_c" = none)
    (h3 : jget r "temp_c" = some (.num (.rat 85))) :
    detect_anomaly r = .ok ⟨true, "DS18B20_HIGH_TEMP", metricsDS (some (.rat 85))⟩ ∧
    (metricsDS (some (.rat 85))).lookup "temperature_c" = some (.d (some (.rat 85))) := by
  have ht : tempResolve r (get_data_dict r) = some (.rat 85) := by
    unfold tempResolve
    rw [h1, h2, h3]
    rfl
  constructor
  · simp only [detect_anomaly, hs]
    rw [if_pos (Or.inl trivial)]
    simp only [detectDS18B20, ht]
    rfl
  · rfl

theorem claim_C4_witness :
    sensorUpper wC4 = "DS18B20" ∧ jget wC4 "temperature_c" = none ∧
    (detect_anomaly wC4 = .ok ⟨true, "DS18B20_HIGH_TEMP", metricsDS (some (.rat 85))⟩ ∧
     (metricsDS (some (.rat 85))).lookup "temperature_c" =
       some (.d (some (.rat 85)))) :=
  ⟨rfl, rfl, claim_C4_fallback_high_temp wC4 rfl rfl rfl rfl⟩

/-- C5 counterexample: the claim fixes the bound `SOUND_DB_HIGH = 80`, but the
threshold table of the code sets `SOUND_DB_HIGH = Decimal("85")`. -/
theorem claim_C5_counterexample :
    TH "SOUND_DB_HIGH" = .rat 85 ∧ TH "SOUND_DB_HIGH" ≠ .rat 80 := by
  constructor
  · rfl
  · intro h
    rw [show TH "SOUND_DB_HIGH" = .rat 85 from rfl] at h
    simp at h

/-- C5 (corrected): with the code's actual bound `SOUND_DB_HIGH = 85`, an
INMP441 reading whose `sound_db` is 90 is classified `INMP441_HIGH_DB`
regardless of the value (or absence, or even NaN-ness) of its RMS-amplitude
field, because the dB rule is checked first and stops evaluation. -/
theorem claim_C5_db_rule_first (r : JObj)
    (hs : sensorUpper r = "INMP441")
    (hd1 : pyIn "ds18b20" (datatypeLower r) = false)
    (hd2 : pyIn "temp" (datatypeLower r) = false)
    (hd3 : pyIn "current" (datatypeLower r) = false)
    (hd4 : pyIn "amps" (datatypeLower r) = false)
    (hdb : jget r "sound_db" = some (.num (.rat 90))) :
    detect_anomaly r = .ok ⟨true, "INMP441_HIGH_DB",
      metricsINMP (soundRmsResolve r (get_data_dict r)) (some (.rat 90))⟩ := by
  have hdbr : soundDbResolve r (get_data_dict r) = some (.rat 90) := by
    unfold soundDbResolve
    rw [hdb]
    rfl
  have hn1 : ¬(("INMP441" : String) = "DS18B20" ∨
      pyIn "ds18b20" (datatypeLower r) = true ∨
      pyIn "temp" (datatypeLower r) = true) := by
    rintro (h | h | h)
    · exact absurd h (by decide)
    · rw [hd1] at h; exact absurd h (by decide)
    · rw [hd2] at h; exact absurd h (by decide)
  have hn2 : ¬(("INMP441" : String) = "SCT-013" ∨ ("INMP441" : String) = "SCT013" ∨
      pyIn "current" (datatypeLower r) = true ∨
      pyIn "amps" (datatypeLower r) = true) := by
    rintro (h | h | h | h)
    · exact absurd h (by decide)
    · exact absurd h (by decide)
    · rw [hd3] at h; exact absurd h (by decide)
    · rw [hd4] at h; exact absurd h (by decide)
  simp only [detect_anomaly, hs]
  rw [if_neg hn1, if_neg hn2, if_pos (Or.inl trivial)]
  simp only [detectINMP441, hdbr]
  rfl

theorem claim_C5_witness :
    sensorUpper wC5 = "INMP441" ∧
    soundRmsResolve wC5 (get_data_dict wC5) = some .nan ∧
    detect_anomaly wC5 = .ok ⟨true, "INMP441_HIGH_DB",
      metricsINMP (some .nan) (some (.rat 90))⟩ := by
  refine ⟨rfl, rfl, ?_⟩
  have := claim_C5_db_rule_first wC5 rfl rfl rfl rfl rfl rfl
  exact this

/-- C7 counterexample: the reading `{"sensor": "DS18B20", "temp_c": "abc",
"value": NaN}` has a needed numeric field (`temp_c`) present but not
numerically convertible, yet classification raises: the unconvertible alias is
skipped, the chain falls through to the convertible (and truthy) NaN, and the
`temp < TH["TEMP_C_LOW"]` Decimal comparison raises `InvalidOperation` to the
caller. -/
theorem claim_C7_counterexample :
    to_decimal (jget wC7bad "temp_c") = none ∧
    detect_anomaly wC7bad = .error () :=
  ⟨rfl, rfl⟩

/-- C7 (corrected): an alias that is present but NOT numerically convertible
is resolved as absent and the remaining rules keep being evaluated without any
exception — here an INMP441 reading whose `sound_db` is unconvertible still
has its RMS rule evaluated and classified; only a convertible NaN reaching a
comparison can raise. -/
theorem claim_C7_unconvertible_absent (v : JVal) (r : JObj) (q : ℚ)
    (hv : to_decimal (some v) = none)
    (hs : sensorUpper r = "INMP441")
    (hd1 : pyIn "ds18b20" (datatypeLower r) = false)
    (hd2 : pyIn "temp" (datatypeLower r) = false)
    (hd3 : pyIn "current" (datatypeLower r) = false)
    (hd4 : pyIn "amps" (datatypeLower r) = false)
    (hdb : jget r "sound_db" = some v)
    (hdb2 : jget (get_data_dict r) "sound_db" = none)
    (hdb3 : jget r "noise_db" = none)
    (hdb4 : jget (get_data_dict r) "noise_db" = none)
    (hrms : jget r "sound_rms" = some (.num (.rat q)))
    (hq : 3/5 ≤ q) :
    soundDbResolve r (get_data_dict r) = none ∧
    detect_anomaly r = .ok ⟨true, "INMP441_HIGH_RMS", metricsINMP (some (.rat q)) none⟩ := by
  have hdbr : soundDbResolve r (get_data_dict r) = none := by
    unfold soundDbResolve
    rw [hdb, hv, hdb2, hdb3, hdb4]
    rfl
  have hq0 : (q != 0) = true := by
    simp only [bne_iff_ne, ne_eq]
    intro h
    rw [h] at hq
    norm_num at hq
  have hrmsr : soundRmsResolve r (get_data_dict r) = some (.rat q) := by
    unfold soundRmsResolve
    rw [hrms]
    show orD (some (.rat q)) _ = _
    simp [orD, dTruthy, hq0]
  have hn1 : ¬(("INMP441" : String) = "DS18B20" ∨
      pyIn "ds18b20" (datatypeLower r) = true ∨
      pyIn "temp" (datatypeLower r) = true) := by
    rintro (h | h | h)
    · exact absurd h (by decide)
    · rw [hd1] at h; exact absurd h (by decide)
    · rw [hd2] at h; exact absurd h (by decide)
  have hn2 : ¬(("INMP441" : String) = "SCT-013" ∨ ("INMP441" : String) = "SCT013" ∨
      pyIn "current" (datatypeLower r) = true ∨
      pyIn "amps" (datatypeLower r) = true) := by
    rintro (h | h | h | h)
    · exact absurd h (by decide)
    · exact absurd h (by decide)
    · rw [hd3] at h; exact absurd h (by decide)
    · rw [hd4] at h; exact absurd h (by decide)
  refine ⟨hdbr, ?_⟩
  have e2 : guardCmp (some (Decimal.rat q)) (fun s => dGE s (TH "SOUND_RMS_HIGH")) =
      .ok true := by
    show Except.ok (decide ((60:ℚ)/100 ≤ q)) = Except.ok true
    rw [decide_eq_true (by linarith : (60:ℚ)/100 ≤ q)]
  simp only [detect_anomaly, hs]
  rw [if_neg hn1, if_neg hn2, if_pos (Or.inl trivial)]
  simp only [detectINMP441, hdbr, hrmsr, e2]
  rfl

theorem claim_C7_witness :
    to_decimal (some (JVal.str "abc")) = none ∧
    sensorUpper wC7 = "INMP441" ∧ (3:ℚ)/5 ≤ 9/10 ∧
    (soundDbResolve wC7 (get_data_dict wC7) = none ∧
     detect_anomaly wC7 = .ok ⟨true, "INMP441_HIGH_RMS",
       metricsINMP (some (.rat (9/10))) none⟩) :=
  ⟨rfl, rfl, by norm_num,
   claim_C7_unconvertible_absent (JVal.str "abc") wC7 (9/10) rfl rfl rfl rfl rfl rfl
     rfl rfl rfl rfl rfl (by norm_num)⟩

/-- C8 (confirmed): a reading whose sensor string matches none of the four
known sensors and whose datatype triggers none of the fallback substrings is
classified `is_anomaly = false` with category `UNKNOWN_SENSOR`, and the
classifier returns normally (no exception). -/
theorem claim_C8_unknown_sensor (r : JObj)
    (h1 : sensorUpper r ≠ "MPU6050") (h2 : sensorUpper r ≠ "DS18B20")
    (h3 : sensorUpper r ≠ "SCT-013") (h4 : sensorUpper r ≠ "SCT013")
    (h5 : sensorUpper r ≠ "INMP441")
    (d1 : pyIn "ds18b20" (datatypeLower r) = false)
    (d2 : pyIn "temp" (datatypeLower r) = false)
    (d3 : pyIn "current" (datatypeLower r) = false)
    (d4 : pyIn "amps" (datatypeLower r) = false)
    (d5 : pyIn "sound" (datatypeLower r) = false)
    (d6 : pyIn "noise" (datatypeLower r) = false) :
    detect_anomaly r = .ok ⟨false, "UNKNOWN_SENSOR", [("sensor", .s (sensorUpper r))]⟩ := by
  have hn1 : ¬(sensorUpper r = "DS18B20" ∨
      pyIn "ds18b20" (datatypeLower r) = true ∨
      pyIn "temp" (datatypeLower r) = true) := by
    rintro (h | h | h)
    · exact h2 h
    · rw [d1] at h; exact absurd h (by decide)
    · rw [d2] at h; exact absurd h (by decide)
  have hn2 : ¬(sensorUpper r = "SCT-013" ∨ sensorUpper r = "SCT013" ∨
      pyIn "current" (datatypeLower r) = true ∨
      pyIn "amps" (datatypeLower r) = true) := by
    rintro (h | h | h | h)
    · exact h3 h
    · exact h4 h
    · rw [d3] at h; exact absurd h (by decide)
    · rw [d4] at h; exact absurd h (by decide)
  have hn3 : ¬(sensorUpper r = "INMP441" ∨
      pyIn "sound" (datatypeLower r) = true ∨
      pyIn "noise" (datatypeLower r) = true) := by
    rintro (h | h | h)
    · exact h5 h
    · rw [d5] at h; exact absurd h (by decide)
    · rw [d6] at h; exact absurd h (by decide)
  simp only [detect_anomaly]
  rw [if_neg h1, if_neg hn1, if_neg hn2, if_neg hn3]

theorem claim_C8_witness :
    sensorUpper wC8 = "UNKNOWN_DEVICE" ∧
    detect_anomaly wC8 = .ok ⟨false, "UNKNOWN_SENSOR", [("sensor", .s "UNKNOWN_DEVICE")]⟩ := by
  refine ⟨rfl, ?_⟩
  exact claim_C8_unknown_sensor wC8 (by decide) (by decide) (by decide) (by decide)
    (by decide) rfl rfl rfl rfl rfl rfl

/-- C9 (confirmed): a `fault_state` label alone never forces an anomaly.  An
MPU6050 reading with any non-`normal` fault label whose vibration RMS is below
`VIB_RMS_G_HIGH = 0.055` and whose health score is above `HEALTH_SCORE_LOW =
78` is classified `is_anomaly = false`, `NORMAL` — the numeric-threshold-only
policy of the source's explicit NOTE. -/
theorem claim_C9_fault_label_ignored (r : JObj) (qv qh : ℚ) (f : String)
    (hs : sensorUpper r = "MPU6050")
    (hv : jget (get_data_dict r) "vibration_rms_g" = some (.num (.rat qv)))
    (hh : jget (get_data_dict r) "health_score" = some (.num (.rat qh)))
    (hf : jget (get_data_dict r) "fault_state" = some (.str f))
    (hfn : f ≠ "normal")
    (hqv : qv < 55/1000)
    (hqh : 78 < qh) :
    detect_anomaly r = .ok ⟨false, "NORMAL",
      metricsMPU "MPU6050" (to_decimal (jget r "rpm"))
        (some (.rat qv)) (some (.rat qh)) f⟩ := by
  have e1 : guardCmp (some (Decimal.rat qv)) (fun x => dGE x (TH "VIB_RMS_G_HIGH")) =
      .ok false := by
    show Except.ok (decide ((55:ℚ)/1000 ≤ qv)) = Except.ok false
    rw [decide_eq_false (by linarith : ¬((55:ℚ)/1000 ≤ qv))]
  have e2 : guardCmp (some (Decimal.rat qh)) (fun x => dLE x (TH "HEALTH_SCORE_LOW")) =
      .ok false := by
    show Except.ok (decide (qh ≤ (78:ℚ))) = Except.ok false
    rw [decide_eq_false (by linarith : ¬(qh ≤ (78:ℚ)))]
  simp only [detect_anomaly, hs]
  rw [if_pos trivial]
  simp only [detectMPU6050, hv, hh, hf, to_decimal, pyGetD, Option.getD, pyStr, e1, e2]

theorem claim_C9_witness :
    sensorUpper wC9 = "MPU6050" ∧ ("bearing_wear" : String) ≠ "normal" ∧
    (1:ℚ)/100 < 55/1000 ∧ (78:ℚ) < 95 ∧
    detect_anomaly wC9 = .ok ⟨false, "NORMAL",
      metricsMPU "MPU6050" (to_decimal (jget wC9 "rpm"))
        (some (.rat (1/100))) (some (.rat 95)) "bearing_wear"⟩ :=
  ⟨rfl, by decide, by norm_num, by norm_num,
   claim_C9_fault_label_ignored wC9 (1/100) 95 "bearing_wear" rfl rfl rfl rfl
     (by decide) (by norm_num) (by norm_num)⟩

/-- C10 (confirmed): the MPU6050 branch reads `vibration_rms_g` and
`health_score` only from the nested `data` dict — a reading carrying them at
top level (with the nested keys absent) is classified with both fields absent
and returns `is_anomaly = false`, `NORMAL`. -/
theorem claim_C10_mpu_nested_only (r : JObj) (v : JVal)
    (hs : sensorUpper r = "MPU6050")
    (htop : jget r "vibration_rms_g" = some v)
    (hv : jget (get_data_dict r) "vibration_rms_g" = none)
    (hh : jget (get_data_dict r) "health_score" = none)
    (hfs : jget (get_data_dict r) "fault_state" = none) :
    detect_anomaly r = .ok ⟨false, "NORMAL",
      metricsMPU "MPU6050" (to_decimal (jget r "rpm")) none none "normal"⟩ ∧
    (metricsMPU "MPU6050" (to_decimal (jget r "rpm")) none none
        "normal").lookup "vibration_rms_g" = some (.d none) := by
  constructor
  · simp only [detect_anomaly, hs]
    rw [if_pos trivial]
    simp only [detectMPU6050, hv, hh, hfs, to_decimal, pyGetD, Option.getD, pyStr]
    rfl
  · rfl

theorem claim_C10_witness :
    sensorUpper wC10 = "MPU6050" ∧
    jget wC10 "vibration_rms_g" = some (.num (.rat (9/100))) ∧
    jget (get_data_dict wC10) "vibration_rms_g" = none ∧
    (detect_anomaly wC10 = .ok ⟨false, "NORMAL",
       metricsMPU "MPU6050" (to_decimal (jget wC10 "rpm")) none none "normal"⟩ ∧
     (metricsMPU "MPU6050" (to_decimal (jget wC10 "rpm")) none none
         "normal").lookup "vibration_rms_g" = some (.d none)) :=
  ⟨rfl, rfl, rfl,
   claim_C10_mpu_nested_only wC10 (.num (.rat (9/100))) rfl rfl rfl rfl rfl⟩
